import Mathlib

/-!
Shallow embedding of the multi-agent blog generator (src/main.py).

The program threads a Python dict (string keys and values) through three
agent functions, each of which reads some fields, makes one model call, and
returns the dict extended with one new key.  We model:

  * dicts as association lists with most-recent-binding lookup
    (`Dict.set d k v` models the Python dict literal that copies `d` and
    overrides key `k`, which has the same lookup behavior);
  * Python exceptions as the `PyErr` type carried in `Except`
    (`KeyError` from subscripting, `ValueError` from `get_llm`, and a
    generic constructor for provider/network errors raised by the client);
  * the LLM client's `invoke` behavior as an oracle parameter
    `String → Except PyErr String` from prompt text to returned content;
  * the FastAPI boundary of `/generate` as a total function returning
    either a 200 response or a 500 error with `str(e)` as the detail,
    matching the try/except wrapper in `generate_blog`.
-/

/-- Python dicts with string keys/values, as association lists.  Lookup
returns the most recent binding, so consing models dict override. -/
abbrev Dict := List (String × String)

/-- Dict lookup (`d.get(k)` returning `None` when absent). -/
def Dict.get? : Dict → String → Option String
  | [], _ => none
  | (k', v) :: rest, k => if k' = k then some v else Dict.get? rest k

/-- The dict produced by the Python literal that spreads `d` and then binds
`k` to `v` (as each agent's return statement does): with respect to
`Dict.get?` it overrides `k` and preserves every other key. -/
def Dict.set (d : Dict) (k v : String) : Dict := (k, v) :: d

/-- The Python exceptions that can arise in this program. -/
inductive PyErr where
  | keyError (key : String)
  | valueError (msg : String)
  | exc (msg : String)
deriving DecidableEq

/-- `str(e)`: for a `KeyError` Python prints the repr of the key (quoted);
for `ValueError` and generic exceptions, the message itself. -/
def PyErr.toStr : PyErr → String
  | .keyError k => "'" ++ k ++ "'"
  | .valueError m => m
  | .exc m => m

/-- Python subscript `d[k]`: raises `KeyError(k)` when the key is absent. -/
def Dict.getItem (d : Dict) (k : String) : Except PyErr String :=
  match Dict.get? d k with
  | some v => Except.ok v
  | none => Except.error (PyErr.keyError k)

/-- The behavior of `llm.invoke([HumanMessage(content=prompt)]).content`:
prompt in, content out, possibly raising (provider/network errors). -/
abbrev Oracle := String → Except PyErr String

/-- An oracle whose model calls all succeed (normal provider operation). -/
def pureOracle (f : String → String) : Oracle := fun p => Except.ok (f p)

/-- The f-string built by `research_agent` (src/main.py lines 73-83). -/
def researchPrompt (topic tone length : String) : String :=
  "\nYou are a research agent. Research the topic: \"" ++ topic ++
  "\"\n\nProvide:\n1. Key points to cover\n2. Important facts and statistics\n3. Structured outline for a "
  ++ length ++
  " blog post\n4. Relevant angles and perspectives\n\nTone: " ++ tone ++ "\n    "

/-- The f-string built by `writer_agent` (src/main.py lines 96-107); `wc`
is the word-count range looked up from the `word_count` table. -/
def writerPrompt (research topic tone wc : String) : String :=
  "\nYou are a professional blog writer. Write a complete blog post based on the following research:\n\nResearch:\n"
  ++ research ++ "\n\nRequirements:\n- Topic: " ++ topic ++ "\n- Tone: " ++ tone ++
  "\n- Length: " ++ wc ++
  " words\n- Engaging introduction, clear headings, strong conclusion, SEO-friendly.\n    "

/-- The f-string built by `reviewer_agent` (src/main.py lines 114-127). -/
def reviewerPrompt (draft tone : String) : String :=
  "\nYou are an editorial reviewer. Review and polish this draft:\n\nDraft:\n" ++ draft ++
  "\n\nCheck for:\n1. Grammar and spelling\n2. Flow and readability\n3. Tone consistency ("
  ++ tone ++ ")\n4. SEO optimization\n\nReturn the final polished version.\n    "

/-- `research_agent` (src/main.py lines 68-86): reads topic, tone, length
from the state, makes one model call, and returns the state extended with
the result under key "research". -/
def research_agent (llm : Oracle) (inputs : Dict) : Except PyErr Dict := do
  let topic ← Dict.getItem inputs "topic"
  let tone ← Dict.getItem inputs "tone"
  let length ← Dict.getItem inputs "length"
  let result ← llm (researchPrompt topic tone length)
  return Dict.set inputs "research" result

/-- The `word_count` table local to `writer_agent` (src/main.py lines 90-94). -/
def word_count : Dict :=
  [("short", "500-700"), ("medium", "800-1200"), ("long", "1500-2000")]

/-- `writer_agent` (src/main.py lines 89-110): reads research, topic, tone
from the state, resolves the word-count range by subscripting `word_count`
with the state's length (a `KeyError` for unrecognized lengths), makes one
model call, and returns the state extended with "draft".  The subscripts
appear in the f-string's evaluation order. -/
def writer_agent (llm : Oracle) (inputs : Dict) : Except PyErr Dict := do
  let research ← Dict.getItem inputs "research"
  let topic ← Dict.getItem inputs "topic"
  let tone ← Dict.getItem inputs "tone"
  let length ← Dict.getItem inputs "length"
  let wc ← Dict.getItem word_count length
  let result ← llm (writerPrompt research topic tone wc)
  return Dict.set inputs "draft" result

/-- `reviewer_agent` (src/main.py lines 113-130): reads draft and tone,
makes one model call, and returns the state extended with "final_blog". -/
def reviewer_agent (llm : Oracle) (inputs : Dict) : Except PyErr Dict := do
  let draft ← Dict.getItem inputs "draft"
  let tone ← Dict.getItem inputs "tone"
  let result ← llm (reviewerPrompt draft tone)
  return Dict.set inputs "final_blog" result

/-- `blog_chain` (src/main.py lines 137-138): the RunnableSequence
research | writer | reviewer, i.e. strict sequential composition; a stage's
exception propagates and later stages do not run. -/
def blog_chain (llm : Oracle) (inputs : Dict) : Except PyErr Dict := do
  let s1 ← research_agent llm inputs
  let s2 ← writer_agent llm s1
  reviewer_agent llm s2

/-- `BlogRequest` (src/main.py lines 36-39) with its declared defaults. -/
structure BlogRequest where
  topic : String
  tone : String := "professional"
  length : String := "medium"
deriving DecidableEq

/-- `BlogResponse` (src/main.py lines 42-47). -/
structure BlogResponse where
  topic : String
  research : String
  draft : String
  final_blog : String
  status : String
deriving DecidableEq

/-- The observable outcome of a request to `/generate`: a 200 body, or the
HTTPException's status code and detail string. -/
inductive HttpResult where
  | ok (resp : BlogResponse)
  | error (statusCode : Nat) (detail : String)
deriving DecidableEq

/-- The `inputs` dict built by `generate_blog` (src/main.py lines 165-169). -/
def mkInputs (request : BlogRequest) : Dict :=
  [("topic", request.topic), ("tone", request.tone), ("length", request.length)]

/-- The `BlogResponse` construction (src/main.py lines 173-179): each text
field is `final_state.get(key, "")`, a defaulting lookup, and the status
field is always the literal "success". -/
def buildResponse (topic : String) (final_state : Dict) : BlogResponse :=
  { topic := topic
    research := (Dict.get? final_state "research").getD ""
    draft := (Dict.get? final_state "draft").getD ""
    final_blog := (Dict.get? final_state "final_blog").getD ""
    status := "success" }

/-- `generate_blog` (src/main.py lines 162-182): runs the chain on the
request's fields; any exception is caught by the single generic handler and
re-raised as a 500 HTTPException whose detail is `str(e)`. -/
def generate_blog (llm : Oracle) (request : BlogRequest) : HttpResult :=
  match blog_chain llm (mkInputs request) with
  | Except.ok final_state => HttpResult.ok (buildResponse request.topic final_state)
  | Except.error e => HttpResult.error 500 (PyErr.toStr e)

/-- The body returned by `/health`. -/
structure HealthResponse where
  status : String
  version : String
deriving DecidableEq

/-- `health_check` (src/main.py lines 157-159): a constant; it reads no
request data, no pipeline state, and no environment. -/
def health_check : HealthResponse :=
  { status := "healthy", version := "3.0.0" }

/-- The `ChatOpenAI` client handle constructed by `get_llm`. -/
structure ChatOpenAI where
  model : String
  api_key : String
deriving DecidableEq

/-- Python truthiness of `os.getenv`'s result: `None` and the empty string
are falsy. -/
def pyTruthy : Option String → Bool
  | none => false
  | some s => !(s == "")

/-- `get_llm` (src/main.py lines 54-58): reads OPENAI_API_KEY from the
environment and raises a `ValueError` when it is missing (or empty, since
`not api_key` is also true for an empty string). -/
def get_llm (env : String → Option String) : Except PyErr ChatOpenAI :=
  let api_key := env "OPENAI_API_KEY"
  if pyTruthy api_key then
    Except.ok { model := "gpt-4o-mini", api_key := api_key.getD "" }
  else
    Except.error (PyErr.valueError "OPENAI_API_KEY not found in environment variables")

/-- The served application: module initialization has completed and the
long-lived client handle exists. -/
structure App where
  llm : ChatOpenAI
deriving DecidableEq

/-- Module initialization (src/main.py line 61: the top-level
`llm = get_llm()`): it runs when the module loads, before any route can be
served, so a raised `ValueError` aborts startup and no `App` value exists. -/
def module_init (env : String → Option String) : Except PyErr App := do
  let l ← get_llm env
  return { llm := l }

/-- A request body as received on the wire: each field present or absent. -/
structure RawBody where
  topic : Option String
  tone : Option String
  length : Option String

/-- Outcome of request-body validation at the FastAPI boundary. -/
inductive ParseResult where
  | ok (req : BlogRequest)
  | validationError
deriving DecidableEq

/-- Pydantic validation of the body against `BlogRequest`: `topic` has no
default and is required; `tone` and `length` fall back to the defaults
declared at src/main.py lines 38-39. -/
def parseBlogRequest (body : RawBody) : ParseResult :=
  match body.topic with
  | none => ParseResult.validationError
  | some t =>
    ParseResult.ok { topic := t, tone := body.tone.getD "professional", length := body.length.getD "medium" }

/-! ### Helper lemmas -/

theorem bind_ok_eq {ε α β : Type} (a : α) (f : α → Except ε β) :
    (Except.ok a >>= f : Except ε β) = f a := rfl

theorem bind_err_eq {ε α β : Type} (e : ε) (f : α → Except ε β) :
    (Except.error e >>= f : Except ε β) = Except.error e := rfl

theorem bind_eq_ok {ε α β : Type} {x : Except ε α} {f : α → Except ε β} {b : β}
    (h : (x >>= f) = Except.ok b) : ∃ a, x = Except.ok a ∧ f a = Except.ok b := by
  cases x with
  | ok a => exact ⟨a, rfl, h⟩
  | error e => rw [bind_err_eq] at h; exact absurd h (by simp)

theorem Dict.get?_set_self (d : Dict) (k v : String) :
    Dict.get? (Dict.set d k v) k = some v := by
  simp [Dict.set, Dict.get?]

theorem Dict.get?_set_ne (d : Dict) (k v k' : String) (h : k' ≠ k) :
    Dict.get? (Dict.set d k v) k' = Dict.get? d k' := by
  simp [Dict.set, Dict.get?, Ne.symm h]

theorem getItem_eq_ok {d : Dict} {k v : String}
    (h : Dict.getItem d k = Except.ok v) : Dict.get? d k = some v := by
  unfold Dict.getItem at h
  cases hg : Dict.get? d k with
  | some w => rw [hg] at h; cases h; rfl
  | none => rw [hg] at h; exact absurd h (by simp)

/-- Every successful run of `research_agent` returns its input state
extended with exactly the "research" key. -/
theorem research_agent_ok_shape {llm : Oracle} {i s : Dict}
    (h : research_agent llm i = Except.ok s) :
    ∃ r, s = Dict.set i "research" r := by
  unfold research_agent at h
  obtain ⟨t, _, h⟩ := bind_eq_ok h
  obtain ⟨o, _, h⟩ := bind_eq_ok h
  obtain ⟨l, _, h⟩ := bind_eq_ok h
  obtain ⟨r, _, h⟩ := bind_eq_ok h
  exact ⟨r, by cases h; rfl⟩

/-- Every successful run of `writer_agent` returns its input state extended
with exactly the "draft" key. -/
theorem writer_agent_ok_shape {llm : Oracle} {i s : Dict}
    (h : writer_agent llm i = Except.ok s) :
    ∃ d, s = Dict.set i "draft" d := by
  unfold writer_agent at h
  obtain ⟨r, _, h⟩ := bind_eq_ok h
  obtain ⟨t, _, h⟩ := bind_eq_ok h
  obtain ⟨o, _, h⟩ := bind_eq_ok h
  obtain ⟨l, _, h⟩ := bind_eq_ok h
  obtain ⟨w, _, h⟩ := bind_eq_ok h
  obtain ⟨d, _, h⟩ := bind_eq_ok h
  exact ⟨d, by cases h; rfl⟩

/-- Every successful run of `reviewer_agent` returns its input state
extended with exactly the "final_blog" key. -/
theorem reviewer_agent_ok_shape {llm : Oracle} {i s : Dict}
    (h : reviewer_agent llm i = Except.ok s) :
    ∃ fb, s = Dict.set i "final_blog" fb := by
  unfold reviewer_agent at h
  obtain ⟨d, _, h⟩ := bind_eq_ok h
  obtain ⟨o, _, h⟩ := bind_eq_ok h
  obtain ⟨fb, _, h⟩ := bind_eq_ok h
  exact ⟨fb, by cases h; rfl⟩

/-- A length that is not one of the three recognized values is absent from
the `word_count` table. -/
theorem word_count_get?_none {l : String}
    (h1 : ¬("short" = l)) (h2 : ¬("medium" = l)) (h3 : ¬("long" = l)) :
    Dict.get? word_count l = none := by
  simp [word_count, Dict.get?, h1, h2, h3]

/-! ### Claims -/

/-- Auxiliary: a `writer_agent` run on a state holding research, topic,
tone, and a length absent from `word_count` raises `KeyError(length)`. -/
theorem writer_agent_bad_length {llm : Oracle} {i : Dict} {r t o l : String}
    (hr : Dict.get? i "research" = some r) (ht : Dict.get? i "topic" = some t)
    (hto : Dict.get? i "tone" = some o) (hl : Dict.get? i "length" = some l)
    (hwc : Dict.get? word_count l = none) :
    writer_agent llm i = Except.error (PyErr.keyError l) := by
  unfold writer_agent Dict.getItem
  simp only [hr, ht, hto, hl, hwc, bind_ok_eq, bind_err_eq]

/-- Claim C1: for every request whose length is none of short, medium,
long — with the model calls themselves succeeding — the research stage
succeeds, the writer stage then raises a KeyError on the length value while
resolving the word count, and /generate surfaces this as a 500 error (with
str of the KeyError as detail) rather than any success response. -/
theorem c1_invalid_length_fails (f : String → String) (req : BlogRequest)
    (h : req.length ∉ (["short", "medium", "long"] : List String)) :
    (∃ s1, research_agent (pureOracle f) (mkInputs req) = Except.ok s1 ∧
      writer_agent (pureOracle f) s1 = Except.error (PyErr.keyError req.length)) ∧
    generate_blog (pureOracle f) req =
      HttpResult.error 500 (PyErr.toStr (PyErr.keyError req.length)) ∧
    (∀ resp, generate_blog (pureOracle f) req ≠ HttpResult.ok resp) := by
  obtain ⟨t, o, l⟩ := req
  simp only [List.mem_cons, List.not_mem_nil, or_false, not_or] at h
  obtain ⟨h1, h2, h3⟩ := h
  have hwc : Dict.get? word_count l = none :=
    word_count_get?_none (fun hh => h1 hh.symm) (fun hh => h2 hh.symm) (fun hh => h3 hh.symm)
  have hres : research_agent (pureOracle f) (mkInputs ⟨t, o, l⟩) =
      Except.ok (Dict.set (mkInputs ⟨t, o, l⟩) "research" (f (researchPrompt t o l))) := rfl
  have hwr : writer_agent (pureOracle f)
      (Dict.set (mkInputs ⟨t, o, l⟩) "research" (f (researchPrompt t o l))) =
      Except.error (PyErr.keyError l) :=
    writer_agent_bad_length rfl rfl rfl rfl hwc
  have hchain : blog_chain (pureOracle f) (mkInputs ⟨t, o, l⟩) =
      Except.error (PyErr.keyError l) := by
    unfold blog_chain
    rw [hres, bind_ok_eq, hwr, bind_err_eq]
  have hgen : generate_blog (pureOracle f) ⟨t, o, l⟩ =
      HttpResult.error 500 (PyErr.toStr (PyErr.keyError l)) := by
    unfold generate_blog
    rw [hchain]
  refine ⟨⟨_, hres, hwr⟩, hgen, ?_⟩
  intro resp hc
  rw [hgen] at hc
  exact absurd hc (by simp)

theorem c1_invalid_length_fails_witness :
    generate_blog (pureOracle fun _ => "text")
        { topic := "AI", tone := "casual", length := "huge" } =
      HttpResult.error 500 "'huge'" :=
  (c1_invalid_length_fails (fun _ => "text")
    { topic := "AI", tone := "casual", length := "huge" } (by decide)).2.1

/-- Claim C2: the pipeline is the strict sequential composition of the
three stages in the order research, writing, review: whenever the stages
run successfully in that order, `blog_chain` returns exactly the review
stage's result, and each stage's output is its input state extended with
exactly its own key ("research", then "draft", then "final_blog"), each
stage consuming the state produced by the previous one. -/
theorem c2_linear_pipeline (llm : Oracle) (inputs s1 s2 s3 : Dict)
    (h1 : research_agent llm inputs = Except.ok s1)
    (h2 : writer_agent llm s1 = Except.ok s2)
    (h3 : reviewer_agent llm s2 = Except.ok s3) :
    blog_chain llm inputs = Except.ok s3 ∧
    (∃ r, s1 = Dict.set inputs "research" r) ∧
    (∃ d, s2 = Dict.set s1 "draft" d) ∧
    (∃ fb, s3 = Dict.set s2 "final_blog" fb) := by
  refine ⟨?_, research_agent_ok_shape h1, writer_agent_ok_shape h2, reviewer_agent_ok_shape h3⟩
  unfold blog_chain
  rw [h1, bind_ok_eq, h2, bind_ok_eq, h3]

theorem c2_linear_pipeline_witness :
    blog_chain (pureOracle fun _ => "x") (mkInputs { topic := "T" }) =
      Except.ok [("final_blog", "x"), ("draft", "x"), ("research", "x"),
                 ("topic", "T"), ("tone", "professional"), ("length", "medium")] :=
  (c2_linear_pipeline (pureOracle fun _ => "x") (mkInputs { topic := "T" })
    [("research", "x"), ("topic", "T"), ("tone", "professional"), ("length", "medium")]
    [("draft", "x"), ("research", "x"), ("topic", "T"), ("tone", "professional"),
     ("length", "medium")]
    [("final_blog", "x"), ("draft", "x"), ("research", "x"), ("topic", "T"),
     ("tone", "professional"), ("length", "medium")]
    rfl rfl rfl).1

/-- Claim C3: each stage is a frame-respecting extension: on success,
`research_agent`, `writer_agent`, and `reviewer_agent` leave every
pre-existing key of their input state (topic, tone, length, and any
previously produced stage outputs) with an unchanged lookup value, and add
exactly their own key "research", "draft", "final_blog" respectively. -/
theorem c3_stage_frame (llm : Oracle) (i1 i2 i3 s1 s2 s3 : Dict)
    (h1 : research_agent llm i1 = Except.ok s1)
    (h2 : writer_agent llm i2 = Except.ok s2)
    (h3 : reviewer_agent llm i3 = Except.ok s3) :
    ((∀ k, k ≠ "research" → Dict.get? s1 k = Dict.get? i1 k) ∧
      ∃ r, Dict.get? s1 "research" = some r) ∧
    ((∀ k, k ≠ "draft" → Dict.get? s2 k = Dict.get? i2 k) ∧
      ∃ d, Dict.get? s2 "draft" = some d) ∧
    ((∀ k, k ≠ "final_blog" → Dict.get? s3 k = Dict.get? i3 k) ∧
      ∃ fb, Dict.get? s3 "final_blog" = some fb) := by
  obtain ⟨r, hr⟩ := research_agent_ok_shape h1
  obtain ⟨d, hd⟩ := writer_agent_ok_shape h2
  obtain ⟨fb, hfb⟩ := reviewer_agent_ok_shape h3
  subst hr hd hfb
  exact ⟨⟨fun k hk => Dict.get?_set_ne _ _ _ _ hk, r, Dict.get?_set_self _ _ _⟩,
    ⟨fun k hk => Dict.get?_set_ne _ _ _ _ hk, d, Dict.get?_set_self _ _ _⟩,
    ⟨fun k hk => Dict.get?_set_ne _ _ _ _ hk, fb, Dict.get?_set_self _ _ _⟩⟩

theorem c3_stage_frame_witness :
    Dict.get? [("research", "out"), ("topic", "AI"), ("tone", "pro"), ("length", "medium")]
        "topic" =
      Dict.get? [("topic", "AI"), ("tone", "pro"), ("length", "medium")] "topic" ∧
    ∃ r, Dict.get? [("research", "out"), ("topic", "AI"), ("tone", "pro"), ("length", "medium")]
        "research" = some r := by
  have h := c3_stage_frame (pureOracle fun _ => "out")
    [("topic", "AI"), ("tone", "pro"), ("length", "medium")]
    [("research", "out"), ("topic", "AI"), ("tone", "pro"), ("length", "medium")]
    [("draft", "out"), ("research", "out"), ("topic", "AI"), ("tone", "pro"),
     ("length", "medium")]
    [("research", "out"), ("topic", "AI"), ("tone", "pro"), ("length", "medium")]
    [("draft", "out"), ("research", "out"), ("topic", "AI"), ("tone", "pro"),
     ("length", "medium")]
    [("final_blog", "out"), ("draft", "out"), ("research", "out"), ("topic", "AI"),
     ("tone", "pro"), ("length", "medium")]
    rfl rfl rfl
  exact ⟨h.1.1 "topic" (by decide), h.1.2⟩

/-- Claim C4: every request to /generate either yields a 200 response whose
status field is "success" (the response built from the final state — and
"success" is the only status value `buildResponse` ever produces), or, when
the pipeline raises any exception, a 500 error whose detail is exactly the
string representation of that exception; the match is total, so every
pipeline exception is caught by this single generic handler. -/
theorem c4_catch_all_boundary (llm : Oracle) (req : BlogRequest) :
    (∃ st, blog_chain llm (mkInputs req) = Except.ok st ∧
      generate_blog llm req = HttpResult.ok (buildResponse req.topic st) ∧
      (buildResponse req.topic st).status = "success") ∨
    (∃ e, blog_chain llm (mkInputs req) = Except.error e ∧
      generate_blog llm req = HttpResult.error 500 (PyErr.toStr e)) := by
  cases hc : blog_chain llm (mkInputs req) with
  | ok st =>
    left
    exact ⟨st, rfl, by unfold generate_blog; rw [hc], rfl⟩
  | error e =>
    right
    exact ⟨e, rfl, by unfold generate_blog; rw [hc]⟩

/-- Claim C5: for every request whose length is one of short, medium, long,
when the model calls succeed and return non-empty text (so the pipeline
completes without exception), /generate returns a success response carrying
the original topic, status "success", and non-empty research, draft and
final_blog strings. -/
theorem c5_valid_request_success (f : String → String) (req : BlogRequest)
    (hf : ∀ p, f p ≠ "")
    (hlen : req.length ∈ (["short", "medium", "long"] : List String)) :
    ∃ resp, generate_blog (pureOracle f) req = HttpResult.ok resp ∧
      resp.status = "success" ∧ resp.topic = req.topic ∧
      resp.research ≠ "" ∧ resp.draft ≠ "" ∧ resp.final_blog ≠ "" := by
  obtain ⟨t, o, l⟩ := req
  simp only [List.mem_cons, List.not_mem_nil, or_false] at hlen
  rcases hlen with rfl | rfl | rfl
  · exact ⟨_, rfl, rfl, rfl, hf _, hf _, hf _⟩
  · exact ⟨_, rfl, rfl, rfl, hf _, hf _, hf _⟩
  · exact ⟨_, rfl, rfl, rfl, hf _, hf _, hf _⟩

theorem c5_valid_request_success_witness :
    ∃ resp, generate_blog (pureOracle fun _ => "x")
        { topic := "T", tone := "pro", length := "short" } = HttpResult.ok resp ∧
      resp.status = "success" ∧
      resp.topic = ({ topic := "T", tone := "pro", length := "short" } : BlogRequest).topic ∧
      resp.research ≠ "" ∧ resp.draft ≠ "" ∧ resp.final_blog ≠ "" :=
  c5_valid_request_success (fun _ => "x") { topic := "T", tone := "pro", length := "short" }
    (fun p => show ("x" : String) ≠ "" by decide) (by decide)

/-- Claim C6: when the pipeline raises (here: after a successful research
stage), /generate returns the 500 error carrying only str(e) as its detail
and never a success response; the error constructor carries no response
body, so no partial results (research or draft text) are returned. -/
theorem c6_no_partial_results (llm : Oracle) (req : BlogRequest) (s1 : Dict) (e : PyErr)
    (_hres : research_agent llm (mkInputs req) = Except.ok s1)
    (herr : blog_chain llm (mkInputs req) = Except.error e) :
    generate_blog llm req = HttpResult.error 500 (PyErr.toStr e) ∧
    (∀ resp, generate_blog llm req ≠ HttpResult.ok resp) := by
  have hgen : generate_blog llm req = HttpResult.error 500 (PyErr.toStr e) := by
    unfold generate_blog
    rw [herr]
  refine ⟨hgen, fun resp hc => ?_⟩
  rw [hgen] at hc
  exact absurd hc (by simp)

theorem c6_no_partial_results_witness :
    generate_blog (pureOracle fun _ => "r")
        { topic := "A", tone := "t", length := "big" } =
      HttpResult.error 500 "'big'" :=
  (c6_no_partial_results (pureOracle fun _ => "r")
    { topic := "A", tone := "t", length := "big" }
    [("research", "r"), ("topic", "A"), ("tone", "t"), ("length", "big")]
    (PyErr.keyError "big") rfl rfl).1

/-- Claim C7: the /health endpoint is a constant: it takes no request data,
reads no pipeline state and no environment, and always produces status
"healthy" with the non-empty version string "3.0.0". -/
theorem c7_health_constant :
    health_check = { status := "healthy", version := "3.0.0" } ∧
    health_check.status = "healthy" ∧ health_check.version ≠ "" :=
  ⟨rfl, rfl, by decide⟩

/-- Claim C8: when OPENAI_API_KEY is absent from the environment, `get_llm`
raises the ValueError, and since the top-level assignment runs `get_llm` at
module load, startup fails: no `App` value (no served endpoint) exists. -/
theorem c8_missing_key_startup_failure (env : String → Option String)
    (h : env "OPENAI_API_KEY" = none) :
    get_llm env =
      Except.error (PyErr.valueError "OPENAI_API_KEY not found in environment variables") ∧
    module_init env =
      Except.error (PyErr.valueError "OPENAI_API_KEY not found in environment variables") ∧
    (∀ a, module_init env ≠ Except.ok a) := by
  have hg : get_llm env =
      Except.error (PyErr.valueError "OPENAI_API_KEY not found in environment variables") := by
    simp [get_llm, h, pyTruthy]
  have hm : module_init env =
      Except.error (PyErr.valueError "OPENAI_API_KEY not found in environment variables") := by
    unfold module_init
    rw [hg, bind_err_eq]
  refine ⟨hg, hm, fun a hc => ?_⟩
  rw [hm] at hc
  exact absurd hc (by simp)

theorem c8_missing_key_startup_failure_witness :
    get_llm (fun _ => none) =
      Except.error (PyErr.valueError "OPENAI_API_KEY not found in environment variables") :=
  (c8_missing_key_startup_failure (fun _ => none) rfl).1

/-- Claim C9: a body containing only a topic validates successfully, with
tone defaulting to "professional" and length to "medium", and is processed
by /generate exactly as the fully explicit request would be. -/
theorem c9_request_defaults (t : String) (llm : Oracle) :
    parseBlogRequest { topic := some t, tone := none, length := none } =
      ParseResult.ok { topic := t, tone := "professional", length := "medium" } ∧
    generate_blog llm { topic := t, tone := "professional", length := "medium" } =
      generate_blog llm { topic := t } :=
  ⟨rfl, rfl⟩

/-- Claim C10: /generate builds its success response with defaulting
lookups: the returned body is exactly `buildResponse` of the final state,
and `buildResponse` always has status "success" while producing the empty
string for any of the "research", "draft", "final_blog" keys missing from
the state — so a status of "success" by itself does not guarantee the three
output fields are non-empty. -/
theorem c10_defaulting_lookup (llm : Oracle) (req : BlogRequest) (st : Dict)
    (h : blog_chain llm (mkInputs req) = Except.ok st) :
    generate_blog llm req = HttpResult.ok (buildResponse req.topic st) ∧
    ∀ (t : String) (st2 : Dict),
      (buildResponse t st2).status = "success" ∧
      (Dict.get? st2 "research" = none → (buildResponse t st2).research = "") ∧
      (Dict.get? st2 "draft" = none → (buildResponse t st2).draft = "") ∧
      (Dict.get? st2 "final_blog" = none → (buildResponse t st2).final_blog = "") := by
  constructor
  · unfold generate_blog
    rw [h]
  · intro t st2
    refine ⟨rfl, fun hr => ?_, fun hd => ?_, fun hfb => ?_⟩
    · show (Dict.get? st2 "research").getD "" = ""
      rw [hr]
      rfl
    · show (Dict.get? st2 "draft").getD "" = ""
      rw [hd]
      rfl
    · show (Dict.get? st2 "final_blog").getD "" = ""
      rw [hfb]
      rfl

theorem c10_defaulting_lookup_witness :
    generate_blog (pureOracle fun _ => "") { topic := "T2", tone := "pro2" } =
      HttpResult.ok { topic := "T2", research := "", draft := "", final_blog := "",
                      status := "success" } ∧
    (buildResponse "x" []).research = "" := by
  have h := c10_defaulting_lookup (pureOracle fun _ => "")
    { topic := "T2", tone := "pro2" }
    [("final_blog", ""), ("draft", ""), ("research", ""), ("topic", "T2"),
     ("tone", "pro2"), ("length", "medium")] rfl
  exact ⟨h.1, (h.2 "x" []).2.1 rfl⟩
